import Mathlib

/-!
Verification of the @kineticcafe/result library: a shallow embedding of the
TypeScript source (src/index.ts, a Rust-style `Result<T, E>` type with list
utilities) into Lean, with proofs about the embedded operations.

The embedding mirrors the source: the abstract class `Result` with its two
concrete subclasses `OkResult` / `ErrResult` becomes a two-constructor
inductive; methods dispatching on the dynamic class become matches on the
constructor; JavaScript exceptions become `Except`; optional parameters
become `Option`; the `U | ((err: E) => U)` union parameter of `mapOr` /
`unwrapOr` becomes a two-constructor sum whose discrimination embeds the
runtime `typeof value === 'function'` test.
-/

namespace KCResult

/-- JavaScript runtime values as exercised by the library's examples and
message construction: numbers and strings, stringified as by a template
literal `${v}`. -/
inductive JSVal where
  | num (n : Int)
  | str (s : String)
deriving DecidableEq

/-- JavaScript template-literal stringification `${v}` of a value. -/
def JSVal.toStr : JSVal → String
  | .num n => toString n
  | .str s => s

/-- The error constructors the library can throw with: the source defaults
are `Error` (for `expect`, `expectErr`, `throwErrs`) and `ReferenceError`
(for `unwrap`, `unwrapErr`); callers may pass either. -/
inductive ErrorClass where
  | error
  | referenceError
deriving DecidableEq

/-- A thrown JavaScript error: the constructor it was created from plus its
message string. -/
structure JSError where
  errorClass : ErrorClass
  message : String
deriving DecidableEq

/-- Embeds JavaScript `String#endsWith` (used as `message.endsWith(':')` in
`throwErrs`): the suffix's characters are a suffix of the string's
characters. -/
def jsEndsWith (s suffix : String) : Bool :=
  suffix.data.isSuffixOf s.data

/-- Embedding of `Result<T, E>`: the abstract class with its two concrete
subclasses `OkResult` (field `ok : T`) and `ErrResult` (field `err : E`)
becomes a closed two-constructor inductive. -/
inductive Result (T E : Type) where
  | ok (val : T) : Result T E
  | err (val : E) : Result T E
deriving DecidableEq

variable {T E U F : Type}

/-- `Ok(ok)` factory: `new OkResult<T, E>(ok)`. -/
def Ok (ok : T) : Result T E := Result.ok ok

/-- `Err(err)` factory: `new ErrResult<T, E>(err)`. -/
def Err (err : E) : Result T E := Result.err err

/-- The guard in the `Result` constructor:
`if (this.constructor === Result) throw new Error('Result is abstract, use Ok() or Err()')`.
The argument records whether the dynamic class of `this` is the abstract
`Result` itself (true exactly for a direct `new Result()`). -/
def resultConstructorGuard (directResultConstruction : Bool) : Except JSError Unit :=
  if directResultConstruction then
    Except.error ⟨ErrorClass.error, "Result is abstract, use Ok() or Err()"⟩
  else
    Except.ok ()

/-- `new Result()`: runs the constructor with `this.constructor === Result`. -/
def newResult : Except JSError Unit :=
  resultConstructorGuard true

/-- `new OkResult(v)` as performed by the `Ok` factory: `super()` runs the
`Result` constructor with `this.constructor === OkResult`, then the value is
stored. -/
def newOkResult (T E : Type) (v : T) : Except JSError (Result T E) :=
  (resultConstructorGuard false).bind (fun _ => Except.ok (Ok v))

/-- `new ErrResult(e)` as performed by the `Err` factory. -/
def newErrResult (T E : Type) (e : E) : Except JSError (Result T E) :=
  (resultConstructorGuard false).bind (fun _ => Except.ok (Err e))

/-- `Result#isOk(pred?)`. `OkResult`: `pred ? pred(this.ok) : true`;
`ErrResult`: `false`. -/
def Result.isOk : Result T E → Option (T → Bool) → Bool
  | .ok v, some pred => pred v
  | .ok _, none => true
  | .err _, _ => false

/-- `Result#isErr(pred?)`. `ErrResult`: `pred ? pred(this.err) : true`;
`OkResult`: `false`. -/
def Result.isErr : Result T E → Option (E → Bool) → Bool
  | .err e, some pred => pred e
  | .err _, none => true
  | .ok _, _ => false

/-- Instrumented `Result#isOk`: same result as `Result.isOk`, paired with
the list of arguments the predicate is invoked on, in invocation order
(`OkResult` invokes `pred` exactly once, on `this.ok`; `ErrResult` never
invokes it). -/
def Result.isOkTraced : Result T E → Option (T → Bool) → Bool × List T
  | .ok v, some pred => (pred v, [v])
  | .ok _, none => (true, [])
  | .err _, _ => (false, [])

/-- Instrumented `Result#isErr`: same result as `Result.isErr`, paired with
the list of arguments the predicate is invoked on. -/
def Result.isErrTraced : Result T E → Option (E → Bool) → Bool × List E
  | .err e, some pred => (pred e, [e])
  | .err _, none => (true, [])
  | .ok _, _ => (false, [])

/-- The `U | ((err: E) => U)` union accepted as the fallback argument of
`mapOr` / `unwrapOr`: either a plain value or a callable. -/
inductive Fallback (E U : Type) where
  | value (u : U) : Fallback E U
  | func (f : E → U) : Fallback E U

/-- The runtime test `typeof value === 'function'` performed on the
fallback argument. -/
def Fallback.isFunction : Fallback E U → Bool
  | .func _ => true
  | .value _ => false

/-- `Result#mapOr(fn, defaultValue)`. `OkResult`: `fn(this.ok)`;
`ErrResult`: `isFunction(defaultValue) ? defaultValue(this.err) :
defaultValue`, the two branches of the match on `Fallback` embedding the
runtime callable test. -/
def Result.mapOr : Result T E → (T → U) → Fallback E U → U
  | .ok v, fn, _ => fn v
  | .err e, _, .func f => f e
  | .err _, _, .value u => u

/-- `Result#unwrapOr(defaultValue)`. `OkResult`: `this.ok`; `ErrResult`:
`isFunction(defaultValue) ? defaultValue(this.err) : defaultValue`. -/
def Result.unwrapOr : Result T E → Fallback E T → T
  | .ok v, _ => v
  | .err e, .func f => f e
  | .err _, .value u => u

/-- Instrumented `Result#mapOr`: the result paired with the list of
arguments the fallback function is invoked on (never invoked on `OkResult`
or when the fallback is a plain value). -/
def Result.mapOrTraced : Result T E → (T → U) → Fallback E U → U × List E
  | .ok v, fn, _ => (fn v, [])
  | .err e, _, .func f => (f e, [e])
  | .err _, _, .value u => (u, [])

/-- Instrumented `Result#unwrapOr`: the result paired with the list of
arguments the fallback function is invoked on. -/
def Result.unwrapOrTraced : Result T E → Fallback E T → T × List E
  | .ok v, _ => (v, [])
  | .err e, .func f => (f e, [e])
  | .err _, .value u => (u, [])

/-- `unwrapFailed(message, err, errorClass)`:
`throw new errorClass(`${message}: ${err}`)`. Returns the thrown error. -/
def unwrapFailed (message : String) (errVal : JSVal) (errorClass : ErrorClass) : JSError :=
  ⟨errorClass, message ++ ": " ++ errVal.toStr⟩

/-- `Result#expect(message, errorClass = Error)`. `OkResult`: returns
`this.ok`; `ErrResult`: `unwrapFailed(message, this.err, errorClass)`. -/
def Result.expect : Result T JSVal → String → ErrorClass → Except JSError T
  | .ok v, _, _ => Except.ok v
  | .err e, message, errorClass => Except.error (unwrapFailed message e errorClass)

/-- `Result#expect` called with the source's default `errorClass = Error`. -/
def Result.expectDefault (r : Result T JSVal) (message : String) : Except JSError T :=
  r.expect message ErrorClass.error

/-- `Result#unwrap(errorClass = ReferenceError)`. `OkResult`: returns
`this.ok`; `ErrResult`:
`unwrapFailed('Called Result#unwrap on an Err value', this.err, errorClass)`. -/
def Result.unwrap : Result T JSVal → ErrorClass → Except JSError T
  | .ok v, _ => Except.ok v
  | .err e, errorClass =>
      Except.error (unwrapFailed "Called Result#unwrap on an Err value" e errorClass)

/-- `Result#unwrap` called with the source's default
`errorClass = ReferenceError`. -/
def Result.unwrapDefault (r : Result T JSVal) : Except JSError T :=
  r.unwrap ErrorClass.referenceError

/-- `Result#expectErr(message, errorClass = Error)`. `ErrResult`: returns
`this.err`; `OkResult`: `unwrapFailed(message, this.ok, errorClass)`. -/
def Result.expectErr : Result JSVal E → String → ErrorClass → Except JSError E
  | .err e, _, _ => Except.ok e
  | .ok v, message, errorClass => Except.error (unwrapFailed message v errorClass)

/-- `Result#expectErr` called with the source's default `errorClass = Error`. -/
def Result.expectErrDefault (r : Result JSVal E) (message : String) : Except JSError E :=
  r.expectErr message ErrorClass.error

/-- `Result#unwrapErr(errorClass = ReferenceError)`. `ErrResult`: returns
`this.err`; `OkResult`:
`unwrapFailed('Called Result#unwrapErr on an Ok value', this.ok, errorClass)`. -/
def Result.unwrapErr : Result JSVal E → ErrorClass → Except JSError E
  | .err e, _ => Except.ok e
  | .ok v, errorClass =>
      Except.error (unwrapFailed "Called Result#unwrapErr on an Ok value" v errorClass)

/-- `Result#unwrapErr` called with the source's default
`errorClass = ReferenceError`. -/
def Result.unwrapErrDefault (r : Result JSVal E) : Except JSError E :=
  r.unwrapErr ErrorClass.referenceError

/-- `flattenResult(value)`:
`value.isOk() ? value.unwrap() : Err(value.unwrapErr())` — on the `ok`
branch `value.unwrap()` returns the held inner result; on the `err` branch
`value.unwrapErr()` returns the held error, re-wrapped with `Err`. -/
def flattenResult : Result (Result T E) E → Result T E
  | .ok inner => inner
  | .err e => Err e

/-- The held `err` field of an `ErrResult`, as read by `unwrapErr` when the
receiver is known (after filtering on `isErr`) to be an `ErrResult`. -/
def Result.errValue : Result T E → Option E
  | .err e => some e
  | .ok _ => none

/-- The held `ok` field of an `OkResult`, as read by `unwrap` when the
receiver is known (after filtering on `isOk`) to be an `OkResult`. -/
def Result.okValue : Result T E → Option T
  | .ok v => some v
  | .err _ => none

/-- `unwrapErrs(results)`:
`results.filter((v) => v.isErr()).map((v) => v.unwrapErr())`. After the
`isErr` filter every element is an `ErrResult`, so `unwrapErr` always
returns the held error; the map step is therefore `filterMap errValue`. -/
def unwrapErrs (results : List (Result T E)) : List E :=
  (results.filter (fun v => v.isErr none)).filterMap Result.errValue

/-- `unwrapOks(results)`:
`results.filter((v) => v.isOk()).map((v) => v.unwrap())`. -/
def unwrapOks (results : List (Result T E)) : List T :=
  (results.filter (fun v => v.isOk none)).filterMap Result.okValue

/-- The bulleted error list built by `throwErrs`:
`errors.map((e) => ` - ${e}`).join('\n')` over `unwrapErrs(results)`. -/
def errBullets (results : List (Result JSVal JSVal)) : String :=
  String.intercalate "\n" ((unwrapErrs results).map (fun e => " - " ++ e.toStr))

/-- `throwErrs(results, message?, errorClass = Error)`: collects
`unwrapErrs(results)`; if non-empty, throws `new errorClass(msg + bullets)`
where `msg` is `'Errors found:\n'` when `message == null`, `''` when
`message.length === 0`, `message + '\n'` when `message.endsWith(':')`, and
`message + ':\n'` otherwise; does nothing when there are no errors. -/
def throwErrs (results : List (Result JSVal JSVal)) (message : Option String)
    (errorClass : ErrorClass) : Except JSError Unit :=
  let errors := unwrapErrs results
  if errors.length > 0 then
    let msg :=
      match message with
      | none => "Errors found:\n"
      | some m =>
          if m.length = 0 then ""
          else if jsEndsWith m ":" then m ++ "\n"
          else m ++ ":\n"
    Except.error ⟨errorClass,
      msg ++ String.intercalate "\n" (errors.map (fun e => " - " ++ e.toStr))⟩
  else
    Except.ok ()

/-- `throwErrs` called with the source's default `errorClass = Error`. -/
def throwErrsDefault (results : List (Result JSVal JSVal)) (message : Option String) :
    Except JSError Unit :=
  throwErrs results message ErrorClass.error

/-- Whether a list of characters occurs contiguously inside another; used to
state that a fixed phrase does not occur in a produced message (so no
regular expression requiring that phrase can match it). -/
def occursWithin : List Char → List Char → Bool
  | needle, [] => needle.isPrefixOf ([] : List Char)
  | needle, c :: rest => needle.isPrefixOf (c :: rest) || occursWithin needle rest

/-- The worked example list `[Err(3), Ok(1), Err('five')]` from the tests. -/
def exampleResults : List (Result JSVal JSVal) :=
  [Err (JSVal.num 3), Ok (JSVal.num 1), Err (JSVal.str "five")]

/- ------------------------------------------------------------------ -/
/- Helper lemmas                                                      -/
/- ------------------------------------------------------------------ -/

theorem unwrapErrs_nil : unwrapErrs ([] : List (Result T E)) = [] := rfl

theorem unwrapErrs_ok_cons (v : T) (rest : List (Result T E)) :
    unwrapErrs (Ok v :: rest) = unwrapErrs rest := by
  simp [unwrapErrs, List.filter_cons, Result.isErr, Ok]

theorem unwrapErrs_err_cons (e : E) (rest : List (Result T E)) :
    unwrapErrs (Err e :: rest) = e :: unwrapErrs rest := by
  simp [unwrapErrs, List.filter_cons, Result.isErr, Err, List.filterMap_cons,
    Result.errValue]

theorem unwrapOks_nil : unwrapOks ([] : List (Result T E)) = [] := rfl

theorem unwrapOks_ok_cons (v : T) (rest : List (Result T E)) :
    unwrapOks (Ok v :: rest) = v :: unwrapOks rest := by
  simp [unwrapOks, List.filter_cons, Result.isOk, Ok, List.filterMap_cons,
    Result.okValue]

theorem unwrapOks_err_cons (e : E) (rest : List (Result T E)) :
    unwrapOks (Err e :: rest) = unwrapOks rest := by
  simp [unwrapOks, List.filter_cons, Result.isOk, Err]

theorem throwErrs_of_errors (results : List (Result JSVal JSVal))
    (message : Option String) (cls : ErrorClass)
    (h : 0 < (unwrapErrs results).length) :
    throwErrs results message cls =
      Except.error ⟨cls,
        (match message with
          | none => "Errors found:\n"
          | some m =>
              if m.length = 0 then ""
              else if jsEndsWith m ":" then m ++ "\n"
              else m ++ ":\n") ++ errBullets results⟩ := by
  unfold throwErrs errBullets
  rw [if_pos h]

theorem throwErrs_of_no_errors (results : List (Result JSVal JSVal))
    (message : Option String) (cls : ErrorClass)
    (h : unwrapErrs results = []) :
    throwErrs results message cls = Except.ok () := by
  unfold throwErrs
  rw [h]
  rfl

theorem jsEndsWith_colon_ne_empty (m : String) (h : jsEndsWith m ":" = true) :
    m.length ≠ 0 := by
  intro hlen
  have hm : m = "" := by
    cases m with
    | mk data =>
      cases data with
      | nil => rfl
      | cons c cs => simp [String.length] at hlen
  subst hm
  simp [jsEndsWith] at h

theorem length_partition (results : List (Result T E)) :
    (unwrapOks results).length + (unwrapErrs results).length = results.length := by
  induction results with
  | nil => rfl
  | cons r rest ih =>
    cases r with
    | ok v =>
      rw [show Result.ok v = Ok v from rfl, unwrapOks_ok_cons, unwrapErrs_ok_cons]
      simp only [List.length_cons]
      omega
    | err e =>
      rw [show Result.err e = Err e from rfl, unwrapOks_err_cons, unwrapErrs_err_cons]
      simp only [List.length_cons]
      omega

/- ------------------------------------------------------------------ -/
/- Claim theorems                                                     -/
/- ------------------------------------------------------------------ -/

/-- C4: for every message `m` and failure value `e`, `expect(m)` on
`Err(e)` throws an error of the supplied class (default `Error`) with
message exactly `"{m}: {stringified e}"` — in particular
`Err(3).expect('no error')` throws `"no error: 3"` — and `expect(m)` on
`Ok(v)` returns `v` without throwing; `expectErr` is the exact symmetric. -/
theorem expect_expectErr_spec :
    (∀ (m : String) (e : JSVal) (cls : ErrorClass),
      (Err e : Result JSVal JSVal).expect m cls =
        Except.error ⟨cls, m ++ ": " ++ e.toStr⟩) ∧
    (∀ (m : String) (e : JSVal),
      (Err e : Result JSVal JSVal).expectDefault m =
        Except.error ⟨ErrorClass.error, m ++ ": " ++ e.toStr⟩) ∧
    (Err (JSVal.num 3) : Result JSVal JSVal).expectDefault "no error" =
      Except.error ⟨ErrorClass.error, "no error: 3"⟩ ∧
    (∀ (T : Type) (v : T) (m : String) (cls : ErrorClass),
      (Ok v : Result T JSVal).expect m cls = Except.ok v) ∧
    (∀ (m : String) (v : JSVal) (cls : ErrorClass),
      (Ok v : Result JSVal JSVal).expectErr m cls =
        Except.error ⟨cls, m ++ ": " ++ v.toStr⟩) ∧
    (∀ (m : String) (v : JSVal),
      (Ok v : Result JSVal JSVal).expectErrDefault m =
        Except.error ⟨ErrorClass.error, m ++ ": " ++ v.toStr⟩) ∧
    (∀ (E : Type) (e : E) (m : String) (cls : ErrorClass),
      (Err e : Result JSVal E).expectErr m cls = Except.ok e) :=
  ⟨fun _ _ _ => rfl, fun _ _ => rfl, rfl, fun _ _ _ _ => rfl,
   fun _ _ _ => rfl, fun _ _ => rfl, fun _ _ _ _ => rfl⟩

/-- C5: `flattenResult` returns the inner result as-is when the outer is
`Ok` (so `flattenResult(Ok(Ok(v))) = Ok(v)` and
`flattenResult(Ok(Err(e))) = Err(e)`), and re-wraps the outer error value
as an equal `Err` when the outer is `Err`. -/
theorem flattenResult_spec :
    (∀ (T E : Type) (inner : Result T E),
      flattenResult (Ok inner : Result (Result T E) E) = inner) ∧
    (∀ (T E : Type) (v : T),
      flattenResult (Ok (Ok v) : Result (Result T E) E) = Ok v) ∧
    (∀ (T E : Type) (e : E),
      flattenResult (Ok (Err e) : Result (Result T E) E) = Err e) ∧
    (∀ (T E : Type) (e : E),
      flattenResult (Err e : Result (Result T E) E) = Err e) :=
  ⟨fun _ _ _ => rfl, fun _ _ _ => rfl, fun _ _ _ => rfl, fun _ _ _ => rfl⟩

/-- C6: `unwrapErrs` returns exactly the held error values of the `Err`
elements in input order, skipping `Ok`s (empty when there are none), so
`unwrapErrs([Err(3), Ok(1), Err('five')]) = [3, 'five']`; `unwrapOks` is
the exact symmetric for `Ok` values. The cons equations characterize the
two functions uniquely, so they pin down the full order-preserving
behavior. -/
theorem unwrapErrs_unwrapOks_order_spec :
    (∀ (T E : Type), unwrapErrs ([] : List (Result T E)) = []) ∧
    (∀ (T E : Type) (v : T) (rest : List (Result T E)),
      unwrapErrs (Ok v :: rest) = unwrapErrs rest) ∧
    (∀ (T E : Type) (e : E) (rest : List (Result T E)),
      unwrapErrs (Err e :: rest) = e :: unwrapErrs rest) ∧
    unwrapErrs exampleResults = [JSVal.num 3, JSVal.str "five"] ∧
    (∀ (T E : Type), unwrapOks ([] : List (Result T E)) = []) ∧
    (∀ (T E : Type) (v : T) (rest : List (Result T E)),
      unwrapOks (Ok v :: rest) = v :: unwrapOks rest) ∧
    (∀ (T E : Type) (e : E) (rest : List (Result T E)),
      unwrapOks (Err e :: rest) = unwrapOks rest) ∧
    unwrapOks ([Ok (JSVal.num 1), Err (JSVal.num 7), Ok (JSVal.str "nine")] :
        List (Result JSVal JSVal)) = [JSVal.num 1, JSVal.str "nine"] :=
  ⟨fun _ _ => rfl,
   fun _ _ v rest => unwrapErrs_ok_cons v rest,
   fun _ _ e rest => unwrapErrs_err_cons e rest,
   rfl,
   fun _ _ => rfl,
   fun _ _ v rest => unwrapOks_ok_cons v rest,
   fun _ _ e rest => unwrapOks_err_cons e rest,
   rfl⟩

/-- C7: `Ok(v).isOk()` is true; `Ok(v).isOk(p)` equals `p(v)` with `p`
invoked exactly once (trace `[v]`); `Err(e).isOk(p)` is false and `p` is
never invoked (trace `[]`); `isErr` is the exact symmetric; and the traced
embeddings agree with the plain `isOk` / `isErr`. -/
theorem isOk_isErr_predicate_spec :
    (∀ (T E : Type) (v : T), (Ok v : Result T E).isOkTraced none = (true, [])) ∧
    (∀ (T E : Type) (v : T) (p : T → Bool),
      (Ok v : Result T E).isOkTraced (some p) = (p v, [v])) ∧
    (∀ (T E : Type) (e : E) (p : T → Bool),
      (Err e : Result T E).isOkTraced (some p) = (false, [])) ∧
    (∀ (T E : Type) (e : E), (Err e : Result T E).isErrTraced none = (true, [])) ∧
    (∀ (T E : Type) (e : E) (p : E → Bool),
      (Err e : Result T E).isErrTraced (some p) = (p e, [e])) ∧
    (∀ (T E : Type) (v : T) (p : E → Bool),
      (Ok v : Result T E).isErrTraced (some p) = (false, [])) ∧
    (∀ (T E : Type) (r : Result T E) (pred : Option (T → Bool)),
      (r.isOkTraced pred).1 = r.isOk pred) ∧
    (∀ (T E : Type) (r : Result T E) (pred : Option (E → Bool)),
      (r.isErrTraced pred).1 = r.isErr pred) := by
  refine ⟨fun _ _ _ => rfl, fun _ _ _ _ => rfl, fun _ _ _ _ => rfl,
    fun _ _ _ => rfl, fun _ _ _ _ => rfl, fun _ _ _ _ => rfl, ?_, ?_⟩
  · intro T E r pred
    cases r <;> cases pred <;> rfl
  · intro T E r pred
    cases r <;> cases pred <;> rfl

/-- C8: `mapOr(fn, fallback)` on `Ok(v)` returns `fn(v)` with the fallback
never invoked (trace `[]`); on `Err(e)` it returns `fallback(e)` when the
fallback argument is a callable (`isFunction` true) and the fallback value
itself otherwise; `unwrapOr` applies the same dispatch, returning the held
value on `Ok`; both return plain (non-Result) values by their types. -/
theorem mapOr_unwrapOr_spec :
    (∀ (T E U : Type) (v : T) (fn : T → U) (fb : Fallback E U),
      (Ok v : Result T E).mapOr fn fb = fn v) ∧
    (∀ (T E U : Type) (v : T) (fn : T → U) (fb : Fallback E U),
      (Ok v : Result T E).mapOrTraced fn fb = (fn v, [])) ∧
    (∀ (T E U : Type) (e : E) (fn : T → U) (g : E → U),
      (Err e : Result T E).mapOr fn (Fallback.func g) = g e) ∧
    (∀ (T E U : Type) (e : E) (fn : T → U) (u : U),
      (Err e : Result T E).mapOr fn (Fallback.value u) = u) ∧
    (∀ (E U : Type) (g : E → U), (Fallback.func g : Fallback E U).isFunction = true) ∧
    (∀ (E U : Type) (u : U), (Fallback.value u : Fallback E U).isFunction = false) ∧
    (∀ (T E : Type) (v : T) (fb : Fallback E T),
      (Ok v : Result T E).unwrapOr fb = v) ∧
    (∀ (T E : Type) (v : T) (fb : Fallback E T),
      (Ok v : Result T E).unwrapOrTraced fb = (v, [])) ∧
    (∀ (T E : Type) (e : E) (g : E → T),
      (Err e : Result T E).unwrapOr (Fallback.func g) = g e) ∧
    (∀ (T E : Type) (e : E) (t : T),
      (Err e : Result T E).unwrapOr (Fallback.value t) = t) :=
  ⟨fun _ _ _ _ _ _ => rfl, fun _ _ _ _ _ _ => rfl, fun _ _ _ _ _ _ => rfl,
   fun _ _ _ _ _ _ => rfl, fun _ _ _ => rfl, fun _ _ _ => rfl,
   fun _ _ _ _ => rfl, fun _ _ _ _ => rfl, fun _ _ _ _ => rfl,
   fun _ _ _ _ => rfl⟩

/-- C9: `new Result()` always throws at construction time (there is no
successful construction path: the result is the fixed construction error),
while the `Ok` and `Err` factories construct their concrete variant
successfully for every payload value. -/
theorem result_construction_spec :
    newResult =
      Except.error ⟨ErrorClass.error, "Result is abstract, use Ok() or Err()"⟩ ∧
    (∀ (T E : Type) (v : T), newOkResult T E v = Except.ok (Ok v)) ∧
    (∀ (T E : Type) (e : E), newErrResult T E e = Except.ok (Err e)) :=
  ⟨rfl, fun _ _ _ => rfl, fun _ _ _ => rfl⟩

/-- C10: for every result built by `Ok` or `Err`, exactly one of
`isOk()` and `isErr()` (without a predicate) holds — stated both per
constructor and as `isOk = not isErr` for an arbitrary result — and
consequently `unwrapOks` and `unwrapErrs` partition any list:
their lengths sum to the input length. -/
theorem partition_spec :
    (∀ (T E : Type) (v : T),
      (Ok v : Result T E).isOk none = true ∧ (Ok v : Result T E).isErr none = false) ∧
    (∀ (T E : Type) (e : E),
      (Err e : Result T E).isOk none = false ∧ (Err e : Result T E).isErr none = true) ∧
    (∀ (T E : Type) (r : Result T E), r.isOk none = !(r.isErr none)) ∧
    (∀ (T E : Type) (results : List (Result T E)),
      (unwrapOks results).length + (unwrapErrs results).length = results.length) := by
  refine ⟨fun _ _ _ => ⟨rfl, rfl⟩, fun _ _ _ => ⟨rfl, rfl⟩, ?_,
    fun _ _ results => length_partition results⟩
  intro T E r
  cases r <;> rfl

/-- C1 counterexample: `throwErrs([Err(3), Ok(1), Err('five')])` with no
message throws with message exactly `"Errors found:\n - 3\n - five"`, which
is not the claimed `"Failures found:\n - 3\n - five"`: the default label in
the source is `"Errors found"`, not `"Failures found"`. -/
theorem throwErrs_default_label_counterexample :
    throwErrsDefault exampleResults none =
      Except.error ⟨ErrorClass.error, "Errors found:\n - 3\n - five"⟩ ∧
    ("Errors found:\n - 3\n - five" == "Failures found:\n - 3\n - five") = false := by
  exact ⟨rfl, by decide⟩

/-- C1 (amended): for every sequence of results containing at least one
`Err`, `throwErrs` without a message throws an error whose message is the
default label `"Errors found"` followed by a colon and the newline-joined
bulleted list (`" - " + stringified value` per line) of the error values,
in order. -/
theorem throwErrs_default_label (results : List (Result JSVal JSVal))
    (cls : ErrorClass) (h : 0 < (unwrapErrs results).length) :
    throwErrs results none cls =
      Except.error ⟨cls, "Errors found:\n" ++ errBullets results⟩ :=
  throwErrs_of_errors results none cls h

/-- C1 witness: the amended claim applied to `[Err(3), Ok(1), Err('five')]`
evaluates to the message `"Errors found:\n - 3\n - five"`. -/
theorem throwErrs_default_label_witness :
    throwErrs exampleResults none ErrorClass.error =
      Except.error ⟨ErrorClass.error, "Errors found:\n - 3\n - five"⟩ :=
  (throwErrs_default_label exampleResults ErrorClass.error (by decide)).trans (by rfl)

/-- C2 counterexample: `Err(3).unwrap()` throws (a `ReferenceError`) with
message exactly `"Called Result#unwrap on an Err value: 3"`; the phrase
`"Failure value"` does not occur in that message, so it neither has the
claimed fixed form `"Called <TypeName>#unwrap on a Failure value: 3"` nor
matches the regular expression `/unwrap.+Failure value: 3/`. -/
theorem unwrap_message_counterexample :
    (Err (JSVal.num 3) : Result JSVal JSVal).unwrapDefault =
      Except.error ⟨ErrorClass.referenceError,
        "Called Result#unwrap on an Err value: 3"⟩ ∧
    occursWithin "Failure value".data
      "Called Result#unwrap on an Err value: 3".data = false := by
  exact ⟨rfl, by decide⟩

/-- C2 (amended): `unwrap` on `Err(e)` throws a `ReferenceError` (the
distinguished lookup kind) by default, with the fixed message
`"Called Result#unwrap on an Err value: {stringified e}"` (so
`Err(3).unwrap()`'s message matches `/unwrap.+Err value: 3/`), and
`unwrapErr` on `Ok(v)` throws with the fixed message
`"Called Result#unwrapErr on an Ok value: {stringified v}"`; on the
matching variant each returns the held value without throwing. -/
theorem unwrap_unwrapErr_messages :
    (∀ (e : JSVal), (Err e : Result JSVal JSVal).unwrapDefault =
      Except.error ⟨ErrorClass.referenceError,
        "Called Result#unwrap on an Err value: " ++ e.toStr⟩) ∧
    (∀ (e : JSVal) (cls : ErrorClass), (Err e : Result JSVal JSVal).unwrap cls =
      Except.error ⟨cls, "Called Result#unwrap on an Err value: " ++ e.toStr⟩) ∧
    (∀ (v : JSVal), (Ok v : Result JSVal JSVal).unwrapErrDefault =
      Except.error ⟨ErrorClass.referenceError,
        "Called Result#unwrapErr on an Ok value: " ++ v.toStr⟩) ∧
    (∀ (v : JSVal) (cls : ErrorClass), (Ok v : Result JSVal JSVal).unwrapErr cls =
      Except.error ⟨cls, "Called Result#unwrapErr on an Ok value: " ++ v.toStr⟩) ∧
    occursWithin "unwrap".data "Called Result#unwrap on an Err value: 3".data = true ∧
    occursWithin "Err value: 3".data "Called Result#unwrap on an Err value: 3".data = true ∧
    (∀ (T : Type) (v : T), (Ok v : Result T JSVal).unwrapDefault = Except.ok v) ∧
    (∀ (E : Type) (e : E), (Err e : Result JSVal E).unwrapErrDefault = Except.ok e) := by
  refine ⟨fun _ => rfl, fun _ _ => rfl, fun _ => rfl, fun _ _ => rfl,
    by decide, by decide, fun _ _ => rfl, fun _ _ => rfl⟩

/-- C3: for every result list with at least one `Err` and every supplied
message, `throwErrs` builds the thrown message deterministically: a message
already ending in a colon gets no extra colon before the newline; the empty
message produces just the bulleted list with no label line; any other
message is followed by `":"` and the newline-joined `" - {value}"` lines in
input order (so message `"errors"` on the example yields exactly
`"errors:\n - 3\n - five"`); and with no `Err` in the list nothing is
thrown. -/
theorem throwErrs_message_shape :
    (∀ (results : List (Result JSVal JSVal)) (cls : ErrorClass) (m : String),
      0 < (unwrapErrs results).length →
        (jsEndsWith m ":" = true →
          throwErrs results (some m) cls =
            Except.error ⟨cls, m ++ "\n" ++ errBullets results⟩) ∧
        (m = "" →
          throwErrs results (some m) cls =
            Except.error ⟨cls, errBullets results⟩) ∧
        (m ≠ "" → jsEndsWith m ":" = false →
          throwErrs results (some m) cls =
            Except.error ⟨cls, m ++ ":\n" ++ errBullets results⟩)) ∧
    (∀ (results : List (Result JSVal JSVal)) (cls : ErrorClass)
        (message : Option String),
      unwrapErrs results = [] → throwErrs results message cls = Except.ok ()) ∧
    throwErrs exampleResults (some "errors") ErrorClass.error =
      Except.error ⟨ErrorClass.error, "errors:\n - 3\n - five"⟩ := by
  refine ⟨?_, fun results cls message h => throwErrs_of_no_errors results message cls h, rfl⟩
  intro results cls m h
  have base := throwErrs_of_errors results (some m) cls h
  refine ⟨?_, ?_, ?_⟩
  · intro hcolon
    rw [base]
    have hne : m.length ≠ 0 := jsEndsWith_colon_ne_empty m hcolon
    simp [hne, hcolon, String.append_assoc]
  · intro hm
    subst hm
    rw [base]
    simp
  · intro hm hcolon
    rw [base]
    have hne : m.length ≠ 0 := by
      intro h0
      apply hm
      cases m with
      | mk data =>
        cases data with
        | nil => rfl
        | cons c cs => simp [String.length] at h0
    simp [hne, hcolon, String.append_assoc]

/-- C3 witness: the message-shape claim applied to the example list with
the messages `"errors:"` (ends in a colon), `""` (empty), and `"errors"`
(plain), and the no-`Err` case applied to `[Ok(1), Ok(3)]`. -/
theorem throwErrs_message_shape_witness :
    throwErrs exampleResults (some "errors:") ErrorClass.error =
      Except.error ⟨ErrorClass.error, "errors:\n - 3\n - five"⟩ ∧
    throwErrs exampleResults (some "") ErrorClass.error =
      Except.error ⟨ErrorClass.error, " - 3\n - five"⟩ ∧
    throwErrs exampleResults (some "errors") ErrorClass.error =
      Except.error ⟨ErrorClass.error, "errors:\n - 3\n - five"⟩ ∧
    throwErrs ([Ok (JSVal.num 1), Ok (JSVal.num 3)] : List (Result JSVal JSVal))
      (some "errors") ErrorClass.error = Except.ok () := by
  have hpos : 0 < (unwrapErrs exampleResults).length := by decide
  refine ⟨?_, ?_, ?_, ?_⟩
  · exact ((throwErrs_message_shape.1 exampleResults ErrorClass.error "errors:" hpos).1
      (by decide)).trans (by rfl)
  · exact ((throwErrs_message_shape.1 exampleResults ErrorClass.error "" hpos).2.1
      rfl).trans (by rfl)
  · exact ((throwErrs_message_shape.1 exampleResults ErrorClass.error "errors" hpos).2.2
      (by decide) (by decide)).trans (by rfl)
  · exact throwErrs_message_shape.2.1 _ ErrorClass.error (some "errors") rfl

end KCResult
